import Mathlib

/-!
Shallow embedding of the CometChat UI-kit demo application:
the demo chat screen (src/ChatDemo/ChatDemo.tsx), the startup chain
(src/main.tsx), and the landing page's collapsible-item toggle
(LandingPage, src/unnamed/part_000).
-/

namespace ChatApp

/-- A CometChat user; the demo code only ever reads its uid (getUid). -/
structure User where
  uid : String
deriving DecidableEq

/-- A CometChat group; only its identity matters to the demo code. -/
structure Group where
  guid : String
deriving DecidableEq

/-- The receiver of a call, as discriminated by the instanceof chain in
handleCallLogClick: a CometChat.User, a CometChat.Group, or any other value
for which both instanceof tests fail. -/
inductive CallReceiver where
  | user (u : User)
  | group (g : Group)
  | other
deriving DecidableEq

/-- A CometChat call-log entry; getCallInitiator and getCallReceiver are the
two accessors the demo reads. -/
structure Call where
  initiator : User
  receiver : CallReceiver
deriving DecidableEq

/-- The four useState slots of the ChatDemo component: selectedUser,
selectedGroup, selectedCall, outgoingCall (each Option = value or
undefined). -/
structure ChatState where
  selectedUser : Option User
  selectedGroup : Option Group
  selectedCall : Option Call
  outgoingCall : Option Call
deriving DecidableEq

/-- The four events handled by the CometChat.CallListener that ChatDemo's
mount effect installs. -/
inductive CallEvent where
  | outgoingCallAccepted
  | outgoingCallRejected
  | incomingCallCancelled
  | callEndedMessageReceived
deriving DecidableEq

/-- The handler bodies of the CallListener installed in ChatDemo's useEffect:
onOutgoingCallAccepted, onOutgoingCallRejected and onCallEndedMessageReceived
each call setOutgoingCall(undefined); onIncomingCallCancelled has an empty
body. -/
def callListenerHandle : CallEvent → ChatState → ChatState
  | .outgoingCallAccepted, s => { s with outgoingCall := none }
  | .outgoingCallRejected, s => { s with outgoingCall := none }
  | .incomingCallCancelled, s => s
  | .callEndedMessageReceived, s => { s with outgoingCall := none }

/-- One setter call (setSelectedUser / setSelectedGroup / setSelectedCall)
performed by a ChatDemo event handler, recorded in program order. -/
inductive Action where
  | setSelectedUser (u : Option User)
  | setSelectedGroup (g : Option Group)
  | setSelectedCall (c : Option Call)
deriving DecidableEq

/-- Effect of one setter call on the ChatDemo state. -/
def applyAction : Action → ChatState → ChatState
  | .setSelectedUser u, s => { s with selectedUser := u }
  | .setSelectedGroup g, s => { s with selectedGroup := g }
  | .setSelectedCall c, s => { s with selectedCall := c }

/-- Effect of a sequence of setter calls, applied left to right. -/
def applyActions (acts : List Action) (s : ChatState) : ChatState :=
  acts.foldl (fun t a => applyAction a t) s

/-- The body of handleCallLogClick once CometChat.getLoggedinUser has
resolved with loggedInUser (null = none), as the sequence of setter calls it
performs: if loggedInUser is non-null and the call initiator's uid equals the
logged-in uid, branch on the receiver (User / Group / neither); otherwise set
the initiator as selected user and clear the group; in every case finish with
setSelectedCall(call). -/
def handleCallLogClick (loggedInUser : Option User) (call : Call) :
    List Action :=
  let callInitiator := call.initiator
  let callReceiver := call.receiver
  (if (match loggedInUser with
       | some u => callInitiator.uid == u.uid
       | none => false)
   then
     match callReceiver with
     | .user r => [.setSelectedUser (some r), .setSelectedGroup none]
     | .group g => [.setSelectedUser none, .setSelectedGroup (some g)]
     | .other => []
   else
     [.setSelectedUser (some callInitiator), .setSelectedGroup none]) ++
  [.setSelectedCall (some call)]

/-- What a CometChat.Conversation wraps (getConversationWith). -/
inductive ConversationWith where
  | user (u : User)
  | group (g : Group)
deriving DecidableEq

/-- A CometChat.Conversation as read by the selector handler. -/
structure Conversation where
  conversationWith : ConversationWith
deriving DecidableEq

/-- The kinds of item CometChatSelector can pass to onSelectorItemClicked. -/
inductive SelectorItem where
  | conversation (c : Conversation)
  | user (u : User)
  | group (g : Group)
  | call (c : Call)
deriving DecidableEq

/-- The reassignment at the top of onSelectorItemClicked: a Conversation is
replaced by its getConversationWith value; anything else is kept as is. -/
def SelectorItem.unwrapConversation : SelectorItem → SelectorItem
  | .conversation c =>
    match c.conversationWith with
    | .user u => .user u
    | .group g => .group g
  | x => x

/-- The onSelectorItemClicked handler of ChatDemo, as the sequence of setter
calls it performs: unwrap a Conversation, then branch by instanceof on User /
Group / Call; a Call delegates to handleCallLogClick, anything else does
nothing. -/
def onSelectorItemClicked (loggedInUser : Option User)
    (activeItem : SelectorItem) : List Action :=
  let item := activeItem.unwrapConversation
  match item with
  | .user u => [.setSelectedUser (some u), .setSelectedCall none,
                .setSelectedGroup none]
  | .group g => [.setSelectedUser none, .setSelectedGroup (some g),
                 .setSelectedCall none]
  | .call c => handleCallLogClick loggedInUser c
  | .conversation _ => []

/-- The condition of the first JSX ternary branch in ChatDemo's return:
selectedUser || selectedGroup renders the messages wrapper (header, list,
composer). -/
def showsConversation (s : ChatState) : Bool :=
  s.selectedUser.isSome || s.selectedGroup.isSome

/-- The second JSX ternary branch: when the first condition is falsy,
selectedCall renders the call-selected-from-history placeholder. -/
def showsCallPlaceholder (s : ChatState) : Bool :=
  !(s.selectedUser.isSome || s.selectedGroup.isSome) && s.selectedCall.isSome

/-- The final JSX ternary branch: when both prior conditions are falsy, the
empty-state prompt is rendered. -/
def showsEmptyPrompt (s : ChatState) : Bool :=
  !(s.selectedUser.isSome || s.selectedGroup.isSome) && !s.selectedCall.isSome

/-- CometChat.addCallListener: registers a listener under the given id. The
registry is modelled as the list of registered listener ids. -/
def addCallListener (listenerID : String) (reg : List String) : List String :=
  reg ++ [listenerID]

/-- CometChat.removeCallListener: removes the listeners registered under the
given id. -/
def removeCallListener (listenerID : String) (reg : List String) :
    List String :=
  reg.filter (fun x => x ≠ listenerID)

/-- The listener id built in ChatDemo's mount effect:
"CALL_LISTENER_" + Date.now(). -/
def callListenerID (now : Nat) : String :=
  "CALL_LISTENER_" ++ toString now

/-- ChatDemo's mount effect: build listenerID from the current time, register
the CallListener under it, and return the id the cleanup closure captures. -/
def chatDemoMountEffect (now : Nat) (reg : List String) :
    List String × String :=
  let listenerID := callListenerID now
  (addCallListener listenerID reg, listenerID)

/-- The cleanup returned by ChatDemo's mount effect: remove the listener
registered under the captured listenerID. -/
def chatDemoUnmountCleanup (listenerID : String) (reg : List String) :
    List String :=
  removeCallListener listenerID reg

/-- The observable outcome of the main.tsx startup chain: whether the React
tree was mounted, which errors were written to the diagnostic log by a catch
handler, and which promise rejections were left unhandled. -/
structure StartupResult where
  mounted : Bool
  diagLog : List String
  unhandled : List String
deriving DecidableEq

/-- The main.tsx startup chain. CometChatUIKit.init(...).then(...) has a
.catch that logs; inside its then-callback, getLoggedinUser().then(...) has
no catch attached, so its rejection is unhandled; when no user is logged in,
login(UID) mounts the app on success and has .catch(console.log); when a
user is already logged in the app is mounted directly. Each argument is the
outcome (resolution or rejection) of the corresponding SDK promise. -/
def startup (sdkInit : Except String Unit)
    (getLoggedinUser : Except String (Option User))
    (login : Except String User) : StartupResult :=
  match sdkInit with
  | .error e => { mounted := false, diagLog := [e], unhandled := [] }
  | .ok _ =>
    match getLoggedinUser with
    | .error e => { mounted := false, diagLog := [], unhandled := [e] }
    | .ok (some _) => { mounted := true, diagLog := [], unhandled := [] }
    | .ok none =>
      match login with
      | .error e => { mounted := false, diagLog := [e], unhandled := [] }
      | .ok _ => { mounted := true, diagLog := [], unhandled := [] }

/-- The toggleItem updater of the landing page: copy the previous open-items
set, then delete the id if present, otherwise add it, and return the new
set. -/
def toggleItem (prev : Finset String) (id : String) : Finset String :=
  if id ∈ prev then prev.erase id else insert id prev

/-- Claim C1 counterexample: with an outgoing call pending, the
incoming-call-cancelled handler leaves the outgoing-call slot populated, so
not every one of the four terminal call events clears it. -/
theorem c1_incomingCancelled_keeps_outgoing :
    ¬ ((callListenerHandle .incomingCallCancelled
        { selectedUser := none, selectedGroup := none, selectedCall := none,
          outgoingCall := some { initiator := { uid := "a" },
                                 receiver := .other } }).outgoingCall
       = none) := by
  decide

/-- Claim C1 (amended): the outgoing-call-accepted, outgoing-call-rejected
and call-ended events each clear the outgoing-call slot, while the
incoming-call-cancelled handler leaves the whole state unchanged. -/
theorem c1_call_events_clear_outgoing (s : ChatState) :
    (callListenerHandle .outgoingCallAccepted s).outgoingCall = none ∧
    (callListenerHandle .outgoingCallRejected s).outgoingCall = none ∧
    (callListenerHandle .callEndedMessageReceived s).outgoingCall = none ∧
    callListenerHandle .incomingCallCancelled s = s :=
  ⟨rfl, rfl, rfl, rfl⟩

/-- Claim C2: clicking a call-log entry while a session exists. If the
initiator's uid equals the logged-in uid, the receiver is placed in the
matching slot and the other slot is cleared; otherwise the initiator is
placed in the user slot and the group slot is cleared. In each case the
setter trace ends with setSelectedCall(call), so the call slot is set only
after the user/group slot. -/
theorem c2_callLog_click_with_session (u : User) (call : Call)
    (s : ChatState) :
    ((call.initiator.uid = u.uid →
      (∀ r, call.receiver = .user r →
        handleCallLogClick (some u) call
          = [.setSelectedUser (some r), .setSelectedGroup none,
             .setSelectedCall (some call)] ∧
        applyActions (handleCallLogClick (some u) call) s
          = { s with selectedUser := some r, selectedGroup := none,
                     selectedCall := some call }) ∧
      (∀ g, call.receiver = .group g →
        handleCallLogClick (some u) call
          = [.setSelectedUser none, .setSelectedGroup (some g),
             .setSelectedCall (some call)] ∧
        applyActions (handleCallLogClick (some u) call) s
          = { s with selectedUser := none, selectedGroup := some g,
                     selectedCall := some call })) ∧
     (call.initiator.uid ≠ u.uid →
      handleCallLogClick (some u) call
        = [.setSelectedUser (some call.initiator), .setSelectedGroup none,
           .setSelectedCall (some call)] ∧
      applyActions (handleCallLogClick (some u) call) s
        = { s with selectedUser := some call.initiator,
                   selectedGroup := none, selectedCall := some call })) := by
  refine ⟨fun hm => ⟨fun r hr => ?_, fun g hg => ?_⟩, fun hn => ?_⟩
  · simp [handleCallLogClick, applyActions, applyAction, hm, hr]
  · simp [handleCallLogClick, applyActions, applyAction, hm, hg]
  · simp [handleCallLogClick, applyActions, applyAction, hn]

/-- Witness for C2 at a concrete matching click whose receiver is a user. -/
theorem c2_callLog_click_with_session_witness :
    applyActions
      (handleCallLogClick (some { uid := "me" })
        { initiator := { uid := "me" }, receiver := .user { uid := "you" } })
      { selectedUser := none, selectedGroup := none, selectedCall := none,
        outgoingCall := none }
      = { selectedUser := some { uid := "you" }, selectedGroup := none,
          selectedCall := some { initiator := { uid := "me" },
                                 receiver := .user { uid := "you" } },
          outgoingCall := none } :=
  ((((c2_callLog_click_with_session { uid := "me" }
    { initiator := { uid := "me" }, receiver := .user { uid := "you" } }
    { selectedUser := none, selectedGroup := none, selectedCall := none,
      outgoingCall := none }).1 rfl).1 { uid := "you" } rfl).2)

/-- Claim C3: selecting a user item sets the user slot and clears the group
and call slots; selecting a group item sets the group slot and clears the
user and call slots; in either case the outgoing-call slot is untouched. -/
theorem c3_selector_clears_other_slots (lu : Option User) (u : User)
    (g : Group) (s : ChatState) :
    applyActions (onSelectorItemClicked lu (.user u)) s
      = { s with selectedUser := some u, selectedGroup := none,
                 selectedCall := none } ∧
    applyActions (onSelectorItemClicked lu (.group g)) s
      = { s with selectedUser := none, selectedGroup := some g,
                 selectedCall := none } :=
  ⟨rfl, rfl⟩

/-- Claim C4 counterexample: when SDK init succeeds and the session check
(getLoggedinUser) rejects, the UI is not mounted but nothing is written to
the diagnostic log: the rejection is unhandled, so a failing step can be
unlogged. -/
theorem c4_session_check_failure_unlogged :
    (startup (.ok ()) (.error ("session lookup failed"))
      (.ok { uid := "cometchat-uid-1" })).mounted = false ∧
    (startup (.ok ()) (.error ("session lookup failed"))
      (.ok { uid := "cometchat-uid-1" })).diagLog = [] ∧
    (startup (.ok ()) (.error ("session lookup failed"))
      (.ok { uid := "cometchat-uid-1" })).unhandled
      = ["session lookup failed"] :=
  ⟨rfl, rfl, rfl⟩

/-- Claim C4 (amended): a rejection of SDK init or of login is written to
the diagnostic log and the UI is not mounted; a rejection of the session
check also leaves the UI unmounted, but as an unhandled rejection rather
than a diagnostic-log entry. -/
theorem c4_startup_failure_behavior (g : Except String (Option User))
    (l : Except String User) :
    (∀ e, (startup (.error e) g l).mounted = false ∧
          (startup (.error e) g l).diagLog = [e]) ∧
    (∀ e, (startup (.ok ()) (.error e) l).mounted = false ∧
          (startup (.ok ()) (.error e) l).diagLog = [] ∧
          (startup (.ok ()) (.error e) l).unhandled = [e]) ∧
    (∀ e, (startup (.ok ()) (.ok none) (.error e)).mounted = false ∧
          (startup (.ok ()) (.ok none) (.error e)).diagLog = [e]) :=
  ⟨fun _ => ⟨rfl, rfl⟩, fun _ => ⟨rfl, rfl, rfl⟩, fun _ => ⟨rfl, rfl⟩⟩

/-- Claim C5: for every state, exactly one of the three JSX branches
renders, the conversation view renders exactly when the user or group slot
is populated, the call placeholder renders exactly when the call slot is
populated and the user and group slots are empty, and the empty-state
prompt renders exactly when all three are empty. -/
theorem c5_render_exactly_one (s : ChatState) :
    ((showsConversation s).toNat + (showsCallPlaceholder s).toNat +
      (showsEmptyPrompt s).toNat = 1) ∧
    (showsConversation s = true ↔
      s.selectedUser.isSome = true ∨ s.selectedGroup.isSome = true) ∧
    (showsCallPlaceholder s = true ↔
      s.selectedCall.isSome = true ∧ s.selectedUser = none ∧
      s.selectedGroup = none) ∧
    (showsEmptyPrompt s = true ↔
      s.selectedUser = none ∧ s.selectedGroup = none ∧
      s.selectedCall = none) := by
  obtain ⟨su, sg, sc, oc⟩ := s
  cases su <;> cases sg <;> cases sc <;>
    simp [showsConversation, showsCallPlaceholder, showsEmptyPrompt]

/-- Claim C6: toggling an id that is absent from the open-items set twice
leaves it absent again. -/
theorem c6_double_toggle_closed (s : Finset String) (id : String)
    (h : id ∉ s) : id ∉ toggleItem (toggleItem s id) id := by
  unfold toggleItem
  rw [if_neg h, if_pos (Finset.mem_insert_self id s)]
  exact Finset.not_mem_erase id (insert id s)

/-- Witness for C6 on the empty open-items set. -/
theorem c6_double_toggle_closed_witness :
    "good-1" ∉ (∅ : Finset String) ∧
    "good-1" ∉ toggleItem (toggleItem ∅ ("good-1")) ("good-1") :=
  ⟨Finset.not_mem_empty _,
   c6_double_toggle_closed ∅ ("good-1") (Finset.not_mem_empty _)⟩

/-- Claim C7: the mount effect registers exactly one listener (it appends
exactly the freshly built id), the cleanup closure captures that same id,
and running the cleanup removes exactly the listener acquired on mount,
restoring the registry, provided the id was not already registered. -/
theorem c7_listener_lifecycle (now : Nat) (reg : List String)
    (hfresh : callListenerID now ∉ reg) :
    (chatDemoMountEffect now reg).1 = reg ++ [callListenerID now] ∧
    (chatDemoMountEffect now reg).2 = callListenerID now ∧
    chatDemoUnmountCleanup (chatDemoMountEffect now reg).2
      (chatDemoMountEffect now reg).1 = reg := by
  refine ⟨rfl, rfl, ?_⟩
  simp [chatDemoUnmountCleanup, chatDemoMountEffect, addCallListener,
        removeCallListener, List.filter_append]
  exact fun a ha e => hfresh (e ▸ ha)

/-- Witness for C7 on the empty registry at time 0. -/
theorem c7_listener_lifecycle_witness :
    callListenerID 0 ∉ ([] : List String) ∧
    chatDemoUnmountCleanup (chatDemoMountEffect 0 []).2
      (chatDemoMountEffect 0 []).1 = [] :=
  ⟨List.not_mem_nil _, (c7_listener_lifecycle 0 [] (List.not_mem_nil _)).2.2⟩

/-- Claim C8: toggling an id changes only that id's membership: any other
id keeps the membership it had in the original set (which, being a value
the updater never writes to, is itself unchanged). -/
theorem c8_toggle_frame (s : Finset String) (id id' : String)
    (h : id' ≠ id) : (id' ∈ toggleItem s id ↔ id' ∈ s) := by
  unfold toggleItem
  split
  · simp [Finset.mem_erase, h]
  · simp [Finset.mem_insert, h]

/-- Witness for C8 with two distinct item ids. -/
theorem c8_toggle_frame_witness :
    ("good-2" : String) ≠ "good-1" ∧
    (("good-2" : String) ∈ toggleItem ({"good-2"} : Finset String) ("good-1")
      ↔ ("good-2" : String) ∈ ({"good-2"} : Finset String)) :=
  ⟨by decide,
   c8_toggle_frame ({"good-2"} : Finset String) ("good-1") ("good-2")
     (by decide)⟩

/-- Claim C9: with no logged-in session (getLoggedinUser resolves null), a
call-log click runs the non-matching branch: the initiator goes to the user
slot, the group slot is cleared, then the call slot is set — for every
receiver, including a group. -/
theorem c9_callLog_click_no_session (call : Call) (s : ChatState) :
    handleCallLogClick none call
      = [.setSelectedUser (some call.initiator), .setSelectedGroup none,
         .setSelectedCall (some call)] ∧
    applyActions (handleCallLogClick none call) s
      = { s with selectedUser := some call.initiator, selectedGroup := none,
                 selectedCall := some call } :=
  ⟨rfl, rfl⟩

/-- Claim C10: on a matching-initiator click whose receiver is neither a
user nor a group, only setSelectedCall runs: the user and group slots keep
their previous values and the call slot is set to the clicked call. -/
theorem c10_callLog_click_other_receiver (u : User) (call : Call)
    (s : ChatState) (hm : call.initiator.uid = u.uid)
    (hr : call.receiver = .other) :
    handleCallLogClick (some u) call = [.setSelectedCall (some call)] ∧
    (applyActions (handleCallLogClick (some u) call) s).selectedUser
      = s.selectedUser ∧
    (applyActions (handleCallLogClick (some u) call) s).selectedGroup
      = s.selectedGroup ∧
    (applyActions (handleCallLogClick (some u) call) s).selectedCall
      = some call := by
  simp [handleCallLogClick, applyActions, applyAction, hm, hr]

/-- Witness for C10 at a concrete click with previously selected user and
group. -/
theorem c10_callLog_click_other_receiver_witness :
    (applyActions
      (handleCallLogClick (some { uid := "me" })
        { initiator := { uid := "me" }, receiver := .other })
      { selectedUser := some { uid := "prev" },
        selectedGroup := some { guid := "grp" }, selectedCall := none,
        outgoingCall := none }).selectedUser = some { uid := "prev" } :=
  (c10_callLog_click_other_receiver { uid := "me" }
    { initiator := { uid := "me" }, receiver := .other }
    { selectedUser := some { uid := "prev" },
      selectedGroup := some { guid := "grp" }, selectedCall := none,
      outgoingCall := none } rfl rfl).2.1

end ChatApp
